import Mathlib

/-!
Verification of the `sisters-promise` Express backend (`server.js`).

The development shallowly embeds the request-handling layer of the server:
the input sanitizer, the checkout handler, the contact-form handler, the
catalog read handlers and the terminal error middleware.  JavaScript strings
are modelled as `List Char`, JavaScript numbers as rationals extended with
`NaN` and the two infinities, and arbitrary JavaScript values by the small
sum type `JSValue` (arrays are modelled by their observable length and their
string coercion, which is all the server can see of them).  Upstream
services (Square catalog/payments, the reCAPTCHA verifier) are modelled as
explicit outcome parameters, so every handler is a pure function from the
request body, the configuration and the upstream outcome to the response it
sends together with a record of whether (and with what) the upstream was
called.
-/

/-- The single-quote character (U+0027), one of the characters stripped by
`sanitizeInput`. -/
def squoteChar : Char := Char.ofNat 39

/-- The double-quote character (U+0022), one of the characters stripped by
`sanitizeInput`. -/
def dquoteChar : Char := Char.ofNat 34

/-- Whitespace in the sense of ECMAScript `String.prototype.trim`:
WhiteSpace (tab, VT, FF, space, NBSP, BOM and the Unicode space
separators) together with the line terminators LF, CR, LS, PS. -/
def isJsWhitespace (c : Char) : Bool :=
  decide (c = ' ') || decide (c = Char.ofNat 9) || decide (c = Char.ofNat 10) ||
  decide (c = Char.ofNat 13) || decide (c = Char.ofNat 11) || decide (c = Char.ofNat 12) ||
  decide (c = Char.ofNat 160) || decide (c = Char.ofNat 0x1680) ||
  (decide (0x2000 ≤ c.toNat) && decide (c.toNat ≤ 0x200a)) ||
  decide (c = Char.ofNat 0x2028) || decide (c = Char.ofNat 0x2029) ||
  decide (c = Char.ofNat 0x202f) || decide (c = Char.ofNat 0x205f) ||
  decide (c = Char.ofNat 0x3000) || decide (c = Char.ofNat 0xfeff)

/-- `s.trim()` from the left: drop leading JS whitespace. -/
def jsTrimLeft (s : List Char) : List Char := s.dropWhile isJsWhitespace

/-- `s.trim()` from the right: drop trailing JS whitespace. -/
def jsTrimRight (s : List Char) : List Char :=
  (s.reverse.dropWhile isJsWhitespace).reverse

/-- ECMAScript `String.prototype.trim`: remove leading and trailing
whitespace. -/
def jsTrim (s : List Char) : List Char := jsTrimRight (jsTrimLeft s)

/-- The characters kept by `sanitizeInput`'s
`.replace(/[<>\x22\x27]/g, '')` step: everything except `<`, `>`, `"`, `'`. -/
def keepChar (c : Char) : Bool :=
  !(decide (c = '<') || decide (c = '>') || decide (c = dquoteChar) ||
    decide (c = squoteChar))

/-- The string body of `sanitizeInput` (server.js lines 83-86):
`input.trim().replace(/[<>\x22\x27]/g, '').slice(0, 500)`. -/
def sanitizeStr (s : List Char) : List Char :=
  ((jsTrim s).filter keepChar).take 500

/-- A JavaScript number: a rational, `NaN`, or one of the two infinities.
(Every IEEE-754 double that is not `NaN`/infinite is a rational, and all the
comparisons and the `Math.floor` performed by the server are exact on
doubles, so rationals are a faithful carrier here.) -/
inductive JSNum where
  | nan
  | posInf
  | negInf
  | val (q : ℚ)
deriving DecidableEq

/-- Truthiness of a JavaScript number: `NaN`, `0` and `-0` are falsy. -/
def JSNum.isTruthy : JSNum → Bool
  | .nan => false
  | .val q => decide (q ≠ 0)
  | _ => true

/-- The `<` comparison on JavaScript numbers (IEEE semantics: any
comparison with `NaN` is false). -/
def JSNum.lt : JSNum → JSNum → Bool
  | .nan, _ => false
  | _, .nan => false
  | .val a, .val b => decide (a < b)
  | .negInf, .negInf => false
  | .negInf, _ => true
  | _, .negInf => false
  | .posInf, _ => false
  | .val _, .posInf => true

/-- `Math.floor` on a JavaScript number. -/
def JSNum.floorJs : JSNum → JSNum
  | .nan => .nan
  | .posInf => .posInf
  | .negInf => .negInf
  | .val q => .val (Rat.floor q)

/-- Decimal digits of the fractional part `n / d` (with `n < d`) by long
division, with explicit fuel.  Doubles always have a terminating decimal
expansion, amply covered by the fuel used below. -/
def fracDigits : ℕ → ℕ → ℕ → List Char
  | 0, _, _ => []
  | _ + 1, 0, _ => []
  | fuel + 1, n, d => Nat.digitChar (n * 10 / d) :: fracDigits fuel (n * 10 % d) d

/-- Decimal rendering of a finite JavaScript number (sign, integer part,
then fractional digits).  No theorem below depends on the exact digits: the
only consumer is the email regular-expression test, which can never match a
purely numeric string (it requires an `@`). -/
def ratDecimalChars (q : ℚ) : List Char :=
  let a : ℚ := |q|
  let ip : ℤ := Rat.floor a
  let frac : ℚ := a - (ip : ℚ)
  (if q < 0 then ['-'] else []) ++ Nat.toDigits 10 ip.toNat ++
    (if frac = 0 then [] else '.' :: fracDigits 1100 frac.num.natAbs frac.den)

/-- ECMAScript `ToString` on a number. -/
def JSNum.toJsChars : JSNum → List Char
  | .nan => ['N', 'a', 'N']
  | .posInf => ['I', 'n', 'f', 'i', 'n', 'i', 't', 'y']
  | .negInf => '-' :: ['I', 'n', 'f', 'i', 'n', 'i', 't', 'y']
  | .val q => ratDecimalChars q

/-- A JavaScript value as observable by this server.  Arrays are modelled
by their observable `length` and their string coercion (the join of their
elements); plain objects by an identity tag (the server never looks inside
an object it did not build itself). -/
inductive JSValue where
  | undefined
  | null
  | bool (b : Bool)
  | num (n : JSNum)
  | str (s : List Char)
  | arr (length : ℕ) (joined : List Char)
  | obj (id : ℕ)
deriving DecidableEq

/-- JavaScript truthiness. -/
def JSValue.isTruthy : JSValue → Bool
  | .undefined => false
  | .null => false
  | .bool b => b
  | .num n => n.isTruthy
  | .str s => !s.isEmpty
  | .arr _ _ => true
  | .obj _ => true

/-- `typeof v === 'string'`. -/
def JSValue.isStr : JSValue → Bool
  | .str _ => true
  | _ => false

/-- `typeof v === 'number'`. -/
def JSValue.isNum : JSValue → Bool
  | .num _ => true
  | _ => false

/-- `v.length > n`: strings and arrays have a numeric `length`; on every
other value `v.length` is `undefined` and `undefined > n` is false. -/
def JSValue.lengthGt (v : JSValue) (n : ℕ) : Bool :=
  match v with
  | .str s => decide (n < s.length)
  | .arr len _ => decide (n < len)
  | _ => false

/-- ECMAScript `ToString` coercion as observed by `emailRegex.test`. -/
def JSValue.toJsChars : JSValue → List Char
  | .undefined => "undefined".toList
  | .null => "null".toList
  | .bool b => (if b then "true" else "false").toList
  | .num n => n.toJsChars
  | .str s => s
  | .arr _ joined => joined
  | .obj _ => "[object Object]".toList

/-- `sanitizeInput` (server.js lines 81-87): non-strings pass through
unchanged; strings are trimmed, stripped of `< > " '` and truncated to 500
characters. -/
def sanitizeInput (v : JSValue) : JSValue :=
  match v with
  | .str s => .str (sanitizeStr s)
  | _ => v

/-- Destructuring default (`const { x = d } = body`): the default applies
exactly when the field is `undefined`. -/
def jsDefault (v d : JSValue) : JSValue :=
  match v with
  | .undefined => d
  | _ => v

/-- `a || b` on an optional string, as JavaScript evaluates it: an absent
(`undefined`/`null`) or empty (falsy) string falls back to the default. -/
def jsStrOr (o : Option (List Char)) (d : List Char) : List Char :=
  match o with
  | some s => if s.isEmpty then d else s
  | none => d

/-- `a || b` on an optional numeric field, as JavaScript evaluates it: an
absent field or the falsy number `0` falls back to the default. -/
def jsNumOr (o : Option ℕ) (d : ℕ) : ℕ :=
  match o with
  | some n => if n = 0 then d else n
  | none => d

/-- The test of `emailRegex = /^[^\s@]+@[^\s@]+\.[^\s@]+$/` (server.js line
312) on the coerced string: the part before the (necessarily unique) `@` is
nonempty and whitespace-free, the part after it is nonempty and free of
whitespace and `@`, and contains a `.` that is neither its first nor its
last character (the character classes admit further dots on either side of
that one). -/
def emailRegexTest (s : List Char) : Bool :=
  let a := s.takeWhile (fun c => !(decide (c = '@')))
  match s.dropWhile (fun c => !(decide (c = '@'))) with
  | [] => false
  | _ :: rest =>
    !a.isEmpty &&
    a.all (fun c => !isJsWhitespace c) &&
    rest.all (fun c => !isJsWhitespace c && !(decide (c = '@'))) &&
    ((rest.drop 1).dropLast.contains '.')

/-- The body of a `POST /api/contact` request (fields absent from the JSON
body destructure to `undefined`). -/
structure ContactBody where
  name : JSValue
  email : JSValue
  message : JSValue
  recaptchaToken : JSValue
deriving DecidableEq

/-- server.js line 299: `!recaptchaToken`. -/
def contactTokenMissing (t : JSValue) : Bool := !t.isTruthy

/-- server.js line 306:
`!name || typeof name !== 'string' || name.length < 2 || name.length > 100`.
Non-strings always fail (either falsy or wrong `typeof`); a string fails
when empty (falsy) or of length outside `[2, 100]`. -/
def contactNameBad : JSValue → Bool
  | .str s => s.isEmpty || decide (s.length < 2) || decide (100 < s.length)
  | _ => true

/-- server.js line 313: `!email || !emailRegex.test(email) || email.length > 100`.
The regex test coerces its argument to a string; `.length` is `undefined`
(hence never `> 100`) on values that are neither strings nor arrays. -/
def contactEmailBad (email : JSValue) : Bool :=
  !email.isTruthy || !emailRegexTest email.toJsChars || email.lengthGt 100

/-- server.js line 319: `!message || typeof message !== 'string' ||
message.length < 10 || message.length > 1000`. -/
def contactMessageBad : JSValue → Bool
  | .str s => s.isEmpty || decide (s.length < 10) || decide (1000 < s.length)
  | _ => true

/-- The outcome of the `axios.post` call to the reCAPTCHA verifier: the
call either throws (network/HTTP failure) or resolves with a verdict
`{success, score}` (the provider's documented response shape). -/
inductive VerifyOutcome where
  | throws
  | returns (success : Bool) (score : ℚ)
deriving DecidableEq

/-- The reCAPTCHA confidence threshold `0.5`, written in lowest terms via
the raw constructor so that kernel reduction can read off its numerator and
denominator directly. -/
def recaptchaThreshold : ℚ := ⟨1, 2, by decide, Nat.coprime_one_left 2⟩

/-- `recaptchaResponse.data.score < 0.5` (server.js line 338). -/
def scoreBelowThreshold (score : ℚ) : Bool := decide (score < recaptchaThreshold)

/-- The responses the contact handler can send. -/
inductive ContactResp where
  | tokenMissing
  | invalidName
  | invalidEmail
  | invalidMessage
  | recaptchaFailed
  | contactFailed
  | ack (reference : List Char)
deriving DecidableEq

/-- HTTP status attached to each contact response (server.js lines
299-368). -/
def ContactResp.status : ContactResp → ℕ
  | .tokenMissing => 400
  | .invalidName => 400
  | .invalidEmail => 400
  | .invalidMessage => 400
  | .recaptchaFailed => 400
  | .contactFailed => 500
  | .ack _ => 200

/-- The `sanitizedData` record the contact handler logs on a verified
submission (server.js lines 345-354). -/
structure ContactLogRecord where
  name : JSValue
  email : JSValue
  message : JSValue
  timestamp : List Char
  ip : List Char
deriving DecidableEq

/-- What one invocation of the contact handler did: the response sent,
whether the bot-verification provider was called, and the log record
emitted (if any). -/
structure ContactResult where
  resp : ContactResp
  verifyCalled : Bool
  logged : Option ContactLogRecord
deriving DecidableEq

/-- The `POST /api/contact` handler (server.js lines 295-370).  `verify` is
the outcome of the reCAPTCHA call; `now`, `ip` and `reference` stand for
`new Date().toISOString()`, `req.ip` and `uuidv4()`. -/
def contactHandler (body : ContactBody) (verify : VerifyOutcome)
    (now ip reference : List Char) : ContactResult :=
  if contactTokenMissing body.recaptchaToken then ⟨.tokenMissing, false, none⟩
  else if contactNameBad body.name then ⟨.invalidName, false, none⟩
  else if contactEmailBad body.email then ⟨.invalidEmail, false, none⟩
  else if contactMessageBad body.message then ⟨.invalidMessage, false, none⟩
  else
    match verify with
    | .throws => ⟨.contactFailed, true, none⟩
    | .returns ok score =>
      if !ok || scoreBelowThreshold score then ⟨.recaptchaFailed, true, none⟩
      else
        ⟨.ack reference, true,
         some ⟨sanitizeInput body.name, sanitizeInput body.email,
               sanitizeInput body.message, now, ip⟩⟩

/-- Follows the spec's words (§4.7): the first failing validation rule in
the order token presence → name length → email format/length → message
length, or `none` when all four pass. -/
def contactFirstFailure (body : ContactBody) : Option ContactResp :=
  if contactTokenMissing body.recaptchaToken then some .tokenMissing
  else if contactNameBad body.name then some .invalidName
  else if contactEmailBad body.email then some .invalidEmail
  else if contactMessageBad body.message then some .invalidMessage
  else none

/-- The body of a `POST /api/checkout` request. -/
structure CheckoutBody where
  sourceId : JSValue
  amount : JSValue
  currency : JSValue
  note : JSValue
deriving DecidableEq

/-- server.js line 237:
`!sourceId || typeof sourceId !== 'string' || sourceId.length < 5`.
Non-strings always fail; a string fails when empty (falsy) or shorter than
5 characters. -/
def checkoutSourceBad : JSValue → Bool
  | .str s => s.isEmpty || decide (s.length < 5)
  | _ => true

/-- server.js line 243:
`!amount || typeof amount !== 'number' || amount < 1 || amount > 999999`.
Non-numbers always fail; a number fails when falsy (`0`, `NaN`), below 1 or
above 999999.  Integrality is not checked. -/
def checkoutAmountBad : JSValue → Bool
  | .num n => !n.isTruthy || n.lt (.val 1) || (JSNum.val 999999).lt n
  | _ => true

/-- The `amountMoney` object sent to (and returned by) Square. -/
structure AmountMoney where
  amount : JSNum
  currency : JSValue
deriving DecidableEq

/-- The argument object of `paymentsApi.createPayment` (server.js lines
259-268). -/
structure PaymentRequest where
  sourceId : JSValue
  amountMoney : AmountMoney
  note : JSValue
  idempotencyKey : List Char
  locationId : JSValue
deriving DecidableEq

/-- The payment object Square may return (`response.result.payment`). -/
structure SqPayment where
  id : List Char
  status : List Char
  amountMoney : Option AmountMoney
deriving DecidableEq

/-- The outcome of the `createPayment` call: it either throws or resolves;
a resolved response carries `response.result?.payment`, which may be
absent. -/
inductive PaymentOutcome where
  | throws
  | returns (payment : Option SqPayment)
deriving DecidableEq

/-- The responses the checkout handler can send. -/
inductive CheckoutResp where
  | invalidSource
  | invalidAmount
  | locationNotConfigured
  | paymentFailed
  | paymentOk (id : List Char) (status : List Char) (amount : JSValue)
      (currency : JSValue) (timestamp : List Char)
deriving DecidableEq

/-- HTTP status attached to each checkout response (server.js lines
237-287). -/
def CheckoutResp.status : CheckoutResp → ℕ
  | .invalidSource => 400
  | .invalidAmount => 400
  | .locationNotConfigured => 500
  | .paymentFailed => 400
  | .paymentOk _ _ _ _ _ => 200

/-- The two input-validation rejections of the checkout handler. -/
def CheckoutResp.isValidationError : CheckoutResp → Bool
  | .invalidSource => true
  | .invalidAmount => true
  | _ => false

/-- What one invocation of the checkout handler did: the response sent
(`none` when no response was sent at all) and the payment request forwarded
upstream (`none` when no upstream call was attempted). -/
structure CheckoutResult where
  resp : Option CheckoutResp
  sent : Option PaymentRequest
deriving DecidableEq

/-- The success envelope's `payment.amount` field:
`response.result.payment.amountMoney?.amount` (server.js line 276). -/
def paymentAmountField (p : SqPayment) : JSValue :=
  match p.amountMoney with
  | some m => .num m.amount
  | none => .undefined

/-- The success envelope's `payment.currency` field:
`response.result.payment.amountMoney?.currency` (server.js line 277). -/
def paymentCurrencyField (p : SqPayment) : JSValue :=
  match p.amountMoney with
  | some m => m.currency
  | none => .undefined

/-- `Math.floor(amount)` applied to an arbitrary value; the handler only
reaches it once `amount` passed the `typeof` check, so only the `num` case
is live. -/
def mathFloorJs : JSValue → JSNum
  | .num n => n.floorJs
  | _ => .nan

/-- The `POST /api/checkout` handler (server.js lines 233-289).
`locationId` models `process.env.SQUARE_LOCATION_ID` (`none` = unset);
`key` stands for `uuidv4()` and `now` for `new Date().toISOString()`;
`upstream` is the outcome of the `createPayment` call.

Note the success branch: when the call resolves but
`response.result?.payment` is absent, the handler sends no response at all
(there is no `else` at line 270 and the `catch` is not reached). -/
def checkoutHandler (body : CheckoutBody) (locationId : Option (List Char))
    (key now : List Char) (upstream : PaymentOutcome) : CheckoutResult :=
  let sourceId := body.sourceId
  let amount := body.amount
  let currency := jsDefault body.currency (.str ['U', 'S', 'D'])
  let note := jsDefault body.note (.str [])
  if checkoutSourceBad sourceId then ⟨some .invalidSource, none⟩
  else if checkoutAmountBad amount then ⟨some .invalidAmount, none⟩
  else
    match locationId with
    | none => ⟨some .locationNotConfigured, none⟩
    | some loc =>
      if loc.isEmpty then ⟨some .locationNotConfigured, none⟩
      else
        let req : PaymentRequest :=
          { sourceId := sanitizeInput sourceId,
            amountMoney := ⟨mathFloorJs amount, sanitizeInput currency⟩,
            note := sanitizeInput note,
            idempotencyKey := key,
            locationId := .str (sanitizeStr loc) }
        match upstream with
        | .throws => ⟨some .paymentFailed, some req⟩
        | .returns none => ⟨none, some req⟩
        | .returns (some p) =>
          ⟨some (.paymentOk p.id p.status (paymentAmountField p)
                  (paymentCurrencyField p) now), some req⟩

/-- Amended rejection condition for the checkout amount, following what the
code actually tests: the amount is rejected exactly when it is not a number
at all, or is `NaN`, `±Infinity`, zero, below 1 or above 999999.  (A
non-integer number inside `[1, 999999]` is accepted and floored.) -/
def amountRejectedAmended : JSValue → Bool
  | .num (.val q) => decide (q = 0) || decide (q < 1) || decide (999999 < q)
  | .num .nan => true
  | .num .posInf => true
  | .num .negInf => true
  | _ => true

/-- The `itemData` of a Square catalog object, with the optional fields the
server reads. -/
structure ItemData where
  name : Option (List Char)
  description : Option (List Char)
  variations : Option (List ℕ)
  imageIds : Option (List (List Char))
  categoryId : Option (List Char)
deriving DecidableEq

/-- A Square catalog object as the server reads it (`variations` entries
are passed through untouched, so their contents are modelled by tags). -/
structure CatalogObject where
  id : List Char
  type : List Char
  itemData : Option ItemData
deriving DecidableEq

/-- The Product shape the server builds from a catalog object. -/
structure Product where
  id : List Char
  name : List Char
  description : List Char
  variations : List ℕ
  imageUrl : JSValue
  categoryId : JSValue
deriving DecidableEq

/-- The string constant `'ITEM'`. -/
def itemTypeChars : List Char := ['I', 'T', 'E', 'M']

/-- The string constant `'Unnamed Product'`. -/
def unnamedProductChars : List Char :=
  ['U', 'n', 'n', 'a', 'm', 'e', 'd', ' ', 'P', 'r', 'o', 'd', 'u', 'c', 't']

/-- `item.itemData?.imageIds?.[0] || null` (server.js line 165): the first
image id, with an absent list, an empty list or a falsy (empty) first
element all yielding `null`. -/
def imageUrlField (o : CatalogObject) : JSValue :=
  match (o.itemData.bind ItemData.imageIds).bind List.head? with
  | some s => if s.isEmpty then .null else .str s
  | none => .null

/-- `item.itemData?.categoryId || null` (server.js line 166). -/
def categoryIdField (o : CatalogObject) : JSValue :=
  match o.itemData.bind ItemData.categoryId with
  | some s => if s.isEmpty then .null else .str s
  | none => .null

/-- The product mapping of server.js lines 160-167 (identical shape at
lines 211-218): each field sanitized or defaulted as in the source. -/
def mkProduct (o : CatalogObject) : Product :=
  { id := sanitizeStr o.id,
    name := sanitizeStr (jsStrOr (o.itemData.bind ItemData.name) unnamedProductChars),
    description := sanitizeStr (jsStrOr (o.itemData.bind ItemData.description) []),
    variations := (o.itemData.bind ItemData.variations).getD [],
    imageUrl := imageUrlField o,
    categoryId := categoryIdField o }

/-- The filter of server.js line 159:
`item.type === 'ITEM' && item.itemData`. -/
def isItemEntry (o : CatalogObject) : Bool :=
  decide (o.type = itemTypeChars) && o.itemData.isSome

/-- The outcome of `catalogApi.listCatalog()`: the call either throws or
resolves; a resolved response carries `response.result?.objects`, which may
be absent. -/
inductive ListOutcome where
  | throws
  | returns (objects : Option (List CatalogObject))
deriving DecidableEq

/-- The responses of `GET /api/products`: the configuration error (500),
the short success envelope for an absent `objects` list, the full success
envelope `{success: true, count, products, cached: false, timestamp}`, and
the catch-all failure (500). -/
inductive ProductsResp where
  | configError
  | emptyOk
  | ok (count : ℕ) (products : List Product) (timestamp : List Char)
  | fetchFailed
deriving DecidableEq

/-- The `GET /api/products` handler (server.js lines 138-184).
`accessToken` models `process.env.SQUARE_ACCESS_TOKEN` (`none` = unset). -/
def productsHandler (accessToken : Option (List Char)) (upstream : ListOutcome)
    (now : List Char) : ProductsResp :=
  match accessToken with
  | none => .configError
  | some tok =>
    if tok.isEmpty then .configError
    else
      match upstream with
      | .throws => .fetchFailed
      | .returns none => .emptyOk
      | .returns (some objs) =>
        let products := ((objs.filter isItemEntry).map mkProduct).take 100
        .ok products.length products now

/-- The outcome of `catalogApi.retrieveCatalogObject`: the call either
throws or resolves; a resolved response carries `response.result?.object`,
which may be absent. -/
inductive RetrieveOutcome where
  | throws
  | returns (object : Option CatalogObject)
deriving DecidableEq

/-- The responses of `GET /api/products/:id`. -/
inductive GetProductResp where
  | invalidId
  | notFound
  | found (p : Product)
  | fetchFailed
deriving DecidableEq

/-- HTTP status attached to each single-product response (server.js lines
193-225). -/
def GetProductResp.status : GetProductResp → ℕ
  | .invalidId => 400
  | .notFound => 404
  | .found _ => 200
  | .fetchFailed => 500

/-- The `GET /api/products/:id` handler (server.js lines 190-227).  The
path parameter is always a string; it is sanitized before validation.  The
second component records whether the upstream retrieval was called. -/
def getProductHandler (id : List Char) (upstream : RetrieveOutcome) :
    GetProductResp × Bool :=
  let productId := sanitizeStr id
  if productId.isEmpty || decide (productId.length < 5) then (.invalidId, false)
  else
    match upstream with
    | .throws => (.fetchFailed, true)
    | .returns none => (.notFound, true)
    | .returns (some item) =>
      if !(decide (item.type = itemTypeChars)) then (.notFound, true)
      else (.found (mkProduct item), true)

/-- An error object as seen by the terminal middleware: `statusCode` and
`message` may be absent (and are falsy when `0` resp. empty), `stack` is
the stack trace. -/
structure JsError where
  statusCode : Option ℕ
  message : Option (List Char)
  stack : List Char
deriving DecidableEq

/-- The string constant `'Internal Server Error'`. -/
def internalServerErrorChars : List Char :=
  ['I', 'n', 't', 'e', 'r', 'n', 'a', 'l', ' ', 'S', 'e', 'r', 'v', 'e', 'r',
   ' ', 'E', 'r', 'r', 'o', 'r']

/-- The JSON body (plus status) emitted by the terminal error middleware:
exactly the fields `error` and `timestamp`, plus `stack` when present. -/
structure ErrResponse where
  status : ℕ
  error : List Char
  stack : Option (List Char)
  timestamp : List Char
deriving DecidableEq

/-- The global error-handling middleware (server.js lines 382-393):
status `err.statusCode || 500`, body `{error: err.message || 'Internal
Server Error', ...(isDevelopment && {stack: err.stack}), timestamp}`. -/
def errorMiddleware (err : JsError) (isDevelopment : Bool)
    (now : List Char) : ErrResponse :=
  { status := jsNumOr err.statusCode 500,
    error := jsStrOr err.message internalServerErrorChars,
    stack := if isDevelopment then some err.stack else none,
    timestamp := now }

/-- A valid contact-form name: `"Jo"`. -/
def demoName : List Char := ['J', 'o']

/-- A valid contact-form email: `"jo@ex.co"`. -/
def demoEmail : List Char := ['j', 'o', '@', 'e', 'x', '.', 'c', 'o']

/-- A valid contact-form message (11 characters). -/
def demoMessage : List Char := ['h', 'e', 'l', 'l', 'o', ' ', 'w', 'o', 'r', 'l', 'd']

/-- A contact body that passes all four validation rules. -/
def cbodyOk : ContactBody :=
  ⟨.str demoName, .str demoEmail, .str demoMessage, .str ['t', 'o', 'k']⟩

/-- A source id of length 5 that survives sanitization unchanged. -/
def demoSourceId : List Char := ['s', 'r', 'c', '_', '1']

/-- The rational `3/2 = 1.5`, written via the raw constructor so that
kernel reduction can read off its numerator and denominator directly. -/
def ratThreeHalves : ℚ := ⟨3, 2, by decide, by norm_num⟩

/-- A checkout body whose amount is the non-integer number `1.5`. -/
def cbodyNonIntAmount : CheckoutBody :=
  ⟨.str demoSourceId, .num (.val ratThreeHalves), .undefined, .undefined⟩

/-- A checkout body whose amount is the integer number `1299`. -/
def cbodyIntAmount : CheckoutBody :=
  ⟨.str demoSourceId, .num (.val 1299), .str ['U', 'S', 'D'], .undefined⟩

/-- A checkout body whose amount is the (falsy) number `0`. -/
def cbodyZeroAmount : CheckoutBody :=
  ⟨.str demoSourceId, .num (.val 0), .undefined, .undefined⟩

/-- A configured Square location id. -/
def demoLocation : List Char := ['L', 'o', 'c', '1', '2']

/-- A payment object as returned by the Square stub of spec §8. -/
def payDemo : SqPayment :=
  ⟨['p', 'a', 'y', '1'], ['C', 'O', 'M', 'P', 'L', 'E', 'T', 'E', 'D'],
   some ⟨.val 1299, .str ['U', 'S', 'D']⟩⟩

/-- A catalog object of type `ITEM` with item data. -/
def cobjDemo : CatalogObject :=
  ⟨['i', 't', 'm', '0', '1'], itemTypeChars,
   some ⟨some ['M', 'u', 'g'], none, some [7], none, none⟩⟩

/-- Every character of a trimmed string is a character of the original. -/
theorem jsTrim_subset (s : List Char) : ∀ c ∈ jsTrim s, c ∈ s := by
  intro c hc
  unfold jsTrim jsTrimRight jsTrimLeft at hc
  rw [List.mem_reverse] at hc
  have h1 := (List.dropWhile_sublist isJsWhitespace).subset hc
  rw [List.mem_reverse] at h1
  exact (List.dropWhile_sublist isJsWhitespace).subset h1

/-- Trimming never lengthens a string. -/
theorem jsTrim_length_le (s : List Char) : (jsTrim s).length ≤ s.length := by
  unfold jsTrim jsTrimRight jsTrimLeft
  rw [List.length_reverse]
  have h1 := (List.dropWhile_sublist (l := (s.dropWhile isJsWhitespace).reverse)
    isJsWhitespace).length_le
  rw [List.length_reverse] at h1
  exact le_trans h1 (List.dropWhile_sublist isJsWhitespace).length_le

/-- Sanitization never lengthens a string. -/
theorem sanitizeStr_length_le (s : List Char) :
    (sanitizeStr s).length ≤ s.length := by
  unfold sanitizeStr
  calc (((jsTrim s).filter keepChar).take 500).length
      ≤ ((jsTrim s).filter keepChar).length := by
        rw [List.length_take]; exact min_le_right _ _
    _ ≤ (jsTrim s).length := List.length_filter_le _ _
    _ ≤ s.length := jsTrim_length_le s

/-- A sanitized string has at most 500 characters. -/
theorem sanitizeStr_length_le_500 (s : List Char) :
    (sanitizeStr s).length ≤ 500 := by
  unfold sanitizeStr
  rw [List.length_take]
  exact min_le_left _ _

/-- Every character of a sanitized string survived the stripping step. -/
theorem mem_sanitizeStr_keep (s : List Char) :
    ∀ c ∈ sanitizeStr s, keepChar c = true := by
  intro c hc
  unfold sanitizeStr at hc
  exact (List.mem_filter.mp (List.mem_of_mem_take hc)).2

/-- The amended amount-rejection condition coincides with the test the
checkout handler performs. -/
theorem amountRejectedAmended_eq (v : JSValue) :
    amountRejectedAmended v = checkoutAmountBad v := by
  cases v with
  | num n =>
    cases n with
    | nan => rfl
    | posInf => rfl
    | negInf => rfl
    | val q =>
      by_cases h0 : q = 0 <;> by_cases h1 : q < 1 <;> by_cases h9 : 999999 < q <;>
        simp [amountRejectedAmended, checkoutAmountBad, JSNum.isTruthy, JSNum.lt,
          h0, h1, h9]
  | undefined => rfl
  | null => rfl
  | bool b => rfl
  | str s => rfl
  | arr l j => rfl
  | obj i => rfl

/-- C1 (counterexample): the claim "every checkout amount that is not an
integer in [1, 999999] is rejected without an upstream call" is false: the
non-integer amount `1.5` (denominator ≠ 1) passes validation and the
upstream payment-creation call is attempted (and it is not the
invalid-amount rejection that is sent). -/
theorem checkout_noninteger_amount_not_rejected :
    ratThreeHalves = 3/2 ∧ ratThreeHalves.den ≠ 1 ∧
    (checkoutHandler cbodyNonIntAmount (some demoLocation) ['k'] ['t']
        (.returns (some payDemo))).sent.isSome = true ∧
    (checkoutHandler cbodyNonIntAmount (some demoLocation) ['k'] ['t']
        (.returns (some payDemo))).resp ≠ some CheckoutResp.invalidAmount := by
  refine ⟨?_, by decide, by decide, by decide⟩
  rw [ratThreeHalves, Rat.mk'_eq_divInt, Rat.divInt_eq_div]
  norm_num

/-- C1 (amended): every checkout request whose amount is not a number, or
is `NaN`, zero, infinite, below 1 or above 999999, is answered with a
validation failure (400) and no upstream payment-creation call is
attempted.  (Integrality is not checked: a non-integer number inside
`[1, 999999]` is accepted and floored.) -/
theorem checkout_bad_amount_rejected (body : CheckoutBody)
    (loc : Option (List Char)) (key now : List Char) (upstream : PaymentOutcome)
    (h : amountRejectedAmended body.amount = true) :
    (∃ r, (checkoutHandler body loc key now upstream).resp = some r ∧
      r.isValidationError = true) ∧
    (checkoutHandler body loc key now upstream).sent = none := by
  have hbad : checkoutAmountBad body.amount = true := by
    rw [← amountRejectedAmended_eq]; exact h
  by_cases hs : checkoutSourceBad body.sourceId = true
  · refine ⟨⟨.invalidSource, ?_, rfl⟩, ?_⟩ <;> simp [checkoutHandler, hs]
  · rw [Bool.not_eq_true] at hs
    refine ⟨⟨.invalidAmount, ?_, rfl⟩, ?_⟩ <;> simp [checkoutHandler, hs, hbad]

/-- C1 (witness): the falsy amount `0` is rejected without an upstream
call. -/
theorem checkout_bad_amount_rejected_witness :
    (∃ r, (checkoutHandler cbodyZeroAmount none [] [] (.returns none)).resp = some r ∧
      r.isValidationError = true) ∧
    (checkoutHandler cbodyZeroAmount none [] [] (.returns none)).sent = none :=
  checkout_bad_amount_rejected cbodyZeroAmount none [] [] (.returns none) (by decide)

/-- C2 (counterexample): the sanitizer is not idempotent: on `"a '"` one
application yields `"a "` (the quote is stripped, exposing a trailing
space), a second application trims that space. -/
theorem sanitize_not_idempotent :
    sanitizeInput (sanitizeInput (.str ['a', ' ', squoteChar])) ≠
      sanitizeInput (.str ['a', ' ', squoteChar]) := by
  decide

/-- C2 (amended): the sanitizer is idempotent up to trimming: a second
application equals trimming the once-sanitized string (stripping and
truncation act only once; only whitespace newly exposed at the boundaries
by the stripping step can differ).  In particular it is idempotent on every
string whose sanitized form has no leading or trailing whitespace. -/
theorem sanitize_idempotent_up_to_trim (s : List Char) :
    sanitizeInput (sanitizeInput (.str s)) = .str (jsTrim (sanitizeStr s)) := by
  have hkeep : ∀ c ∈ jsTrim (sanitizeStr s), keepChar c = true :=
    fun c hc => mem_sanitizeStr_keep s c (jsTrim_subset _ c hc)
  have hfilter : (jsTrim (sanitizeStr s)).filter keepChar = jsTrim (sanitizeStr s) :=
    List.filter_eq_self.mpr hkeep
  have hlen : (jsTrim (sanitizeStr s)).length ≤ 500 :=
    le_trans (jsTrim_length_le _) (sanitizeStr_length_le_500 s)
  show JSValue.str (sanitizeStr (sanitizeStr s)) = .str (jsTrim (sanitizeStr s))
  have : sanitizeStr (sanitizeStr s) = jsTrim (sanitizeStr s) := by
    show ((jsTrim (sanitizeStr s)).filter keepChar).take 500 = jsTrim (sanitizeStr s)
    rw [hfilter, List.take_of_length_le hlen]
  rw [this]

/-- C3 (counterexample): the claim "a bot-verification score ≤ 0.5 is
rejected" is false at the boundary: with otherwise-valid fields and a
verdict `{success: true, score: 0.5}` the handler sends the success
acknowledgment (the code tests `score < 0.5`). -/
theorem contact_score_half_accepted :
    recaptchaThreshold = 1/2 ∧
    (contactHandler cbodyOk (.returns true recaptchaThreshold) ['t'] ['i'] ['r', '1']).resp =
      .ack ['r', '1'] := by
  refine ⟨?_, by decide⟩
  rw [recaptchaThreshold, Rat.mk'_eq_divInt, Rat.divInt_eq_div]
  norm_num

/-- C3 (amended): for a contact submission whose fields pass validation and
whose bot-verification verdict has `success: true`, a score strictly below
0.5 yields the bot-check rejection and a score of at least 0.5 yields the
success acknowledgment carrying the freshly generated reference. -/
theorem contact_score_threshold (body : ContactBody) (score : ℚ)
    (now ip reference : List Char)
    (h1 : contactTokenMissing body.recaptchaToken = false)
    (h2 : contactNameBad body.name = false)
    (h3 : contactEmailBad body.email = false)
    (h4 : contactMessageBad body.message = false) :
    (contactHandler body (.returns true score) now ip reference).resp =
      (if scoreBelowThreshold score then .recaptchaFailed else .ack reference) := by
  cases hsc : scoreBelowThreshold score <;>
    simp [contactHandler, h1, h2, h3, h4, hsc]

/-- C3 (witness): with the valid demo submission and score 0.9 the handler
acknowledges. -/
theorem contact_score_threshold_witness :
    (contactHandler cbodyOk (.returns true (9/10)) [] [] ['r']).resp =
      (if scoreBelowThreshold (9/10) then ContactResp.recaptchaFailed else .ack ['r']) :=
  contact_score_threshold cbodyOk (9/10) [] [] ['r']
    (by decide) (by decide) (by decide) (by decide)

/-- C4: when a checkout request passes validation and the upstream
`createPayment` call resolves without a payment object in its result, the
handler sends no response at all, although the upstream call was made. -/
theorem checkout_missing_payment_no_response (body : CheckoutBody)
    (loc : List Char) (key now : List Char)
    (hs : checkoutSourceBad body.sourceId = false)
    (ha : checkoutAmountBad body.amount = false)
    (hl : loc.isEmpty = false) :
    (checkoutHandler body (some loc) key now (.returns none)).resp = none ∧
    (checkoutHandler body (some loc) key now (.returns none)).sent.isSome = true := by
  constructor <;> simp [checkoutHandler, hs, ha, hl]

/-- C4 (witness): concrete valid checkout body, upstream resolves with no
payment: no response is sent, the upstream was called. -/
theorem checkout_missing_payment_no_response_witness :
    (checkoutHandler cbodyIntAmount (some demoLocation) [] [] (.returns none)).resp = none ∧
    (checkoutHandler cbodyIntAmount (some demoLocation) [] [] (.returns none)).sent.isSome = true :=
  checkout_missing_payment_no_response cbodyIntAmount demoLocation [] []
    (by decide) (by decide) (by decide)

/-- C5: in production (development flag off) the terminal error middleware
emits exactly the error message (falling back to `Internal Server Error`),
the timestamp and the status (the error's own when truthy, else 500), with
no stack field; the stack field is present exactly when the development
flag is on. -/
theorem error_middleware_no_stack_in_production (err : JsError) (dev : Bool)
    (now : List Char) :
    errorMiddleware err false now =
      ⟨jsNumOr err.statusCode 500, jsStrOr err.message internalServerErrorChars,
       none, now⟩ ∧
    (errorMiddleware err dev now).stack = (if dev then some err.stack else none) := by
  constructor <;> simp [errorMiddleware]

/-- C6: the contact handler checks the validation rules in the order token
presence → name length → email format/length → message length: whenever
some rule fails, the whole result is the field-specific rejection of the
first failing rule, with no bot-verification call and no log record; the
verifier is called exactly when all four rules pass. -/
theorem contact_validation_order (body : ContactBody) (verify : VerifyOutcome)
    (now ip reference : List Char) :
    ((contactFirstFailure body).map
        (fun f => (⟨f, false, none⟩ : ContactResult))).getD
        (contactHandler body verify now ip reference) =
      contactHandler body verify now ip reference ∧
    (contactHandler body verify now ip reference).verifyCalled =
      (contactFirstFailure body).isNone := by
  by_cases k1 : contactTokenMissing body.recaptchaToken = true
  · constructor <;> simp [contactHandler, contactFirstFailure, k1]
  · rw [Bool.not_eq_true] at k1
    by_cases k2 : contactNameBad body.name = true
    · constructor <;> simp [contactHandler, contactFirstFailure, k1, k2]
    · rw [Bool.not_eq_true] at k2
      by_cases k3 : contactEmailBad body.email = true
      · constructor <;> simp [contactHandler, contactFirstFailure, k1, k2, k3]
      · rw [Bool.not_eq_true] at k3
        by_cases k4 : contactMessageBad body.message = true
        · constructor <;> simp [contactHandler, contactFirstFailure, k1, k2, k3, k4]
        · rw [Bool.not_eq_true] at k4
          constructor
          · simp [contactFirstFailure, k1, k2, k3, k4]
          · cases verify with
            | throws => simp [contactHandler, contactFirstFailure, k1, k2, k3, k4]
            | returns ok score =>
              cases hsc : (!ok || scoreBelowThreshold score) <;>
                simp [contactHandler, contactFirstFailure, k1, k2, k3, k4, hsc]

/-- C7: for every resolved catalog listing carrying an objects list, the
products handler answers with the success envelope `{success: true, count,
products, ...}` in which the product list has at most 100 entries, `count`
is exactly its length, and every product is the mapping of an `ITEM`-typed
entry (with item data) of the listing. -/
theorem products_success_envelope (tok : List Char) (objs : List CatalogObject)
    (now : List Char) (htok : tok.isEmpty = false) :
    ∃ ps : List Product,
      productsHandler (some tok) (.returns (some objs)) now = .ok ps.length ps now ∧
      ps.length ≤ 100 ∧
      ∀ p ∈ ps, ∃ o, o ∈ objs ∧ o.type = itemTypeChars ∧
        o.itemData.isSome = true ∧ p = mkProduct o := by
  refine ⟨((objs.filter isItemEntry).map mkProduct).take 100, ?_, ?_, ?_⟩
  · simp [productsHandler, htok]
  · rw [List.length_take]
    exact min_le_left _ _
  · intro p hp
    obtain ⟨o, ho, rfl⟩ := List.mem_map.mp (List.mem_of_mem_take hp)
    have h2 := List.mem_filter.mp ho
    have h3 := h2.2
    unfold isItemEntry at h3
    rw [Bool.and_eq_true, decide_eq_true_eq] at h3
    exact ⟨o, h2.1, h3.1, h3.2, rfl⟩

/-- C7 (witness): the envelope properties at a concrete one-item listing. -/
theorem products_success_envelope_witness :
    ∃ ps : List Product,
      productsHandler (some ['t', 'o', 'k']) (.returns (some [cobjDemo])) [] =
        .ok ps.length ps [] ∧
      ps.length ≤ 100 ∧
      ∀ p ∈ ps, ∃ o, o ∈ [cobjDemo] ∧ o.type = itemTypeChars ∧
        o.itemData.isSome = true ∧ p = mkProduct o :=
  products_success_envelope ['t', 'o', 'k'] [cobjDemo] [] (by decide)

/-- C8: a `GET /api/products/:id` request whose id is shorter than 5
characters is answered with the invalid-id validation error (400) and no
upstream catalog retrieval is made (sanitization can only shorten the id,
so the sanitized id is also shorter than 5). -/
theorem getProduct_short_id_rejected (id : List Char) (upstream : RetrieveOutcome)
    (h : id.length < 5) :
    getProductHandler id upstream = (.invalidId, false) ∧
    GetProductResp.status .invalidId = 400 := by
  have hlen : (sanitizeStr id).length < 5 := lt_of_le_of_lt (sanitizeStr_length_le id) h
  refine ⟨?_, rfl⟩
  simp [getProductHandler, hlen]

/-- C8 (witness): the two-character id `"ab"` is rejected without an
upstream call. -/
theorem getProduct_short_id_rejected_witness :
    getProductHandler ['a', 'b'] .throws = (.invalidId, false) ∧
    GetProductResp.status .invalidId = 400 :=
  getProduct_short_id_rejected ['a', 'b'] .throws (by decide)

/-- C9: the sanitizer passes every non-string value through unchanged, with
no coercion. -/
theorem sanitize_nonstring_passthrough (v : JSValue) (h : v.isStr = false) :
    sanitizeInput v = v := by
  cases v <;> first | rfl | simp [JSValue.isStr] at h

/-- C9 (witness): the number `3` is passed through unchanged. -/
theorem sanitize_nonstring_passthrough_witness :
    sanitizeInput (.num (.val 3)) = .num (.val 3) :=
  sanitize_nonstring_passthrough (.num (.val 3)) rfl

/-- C10: when a contact submission passes field validation and the
bot-verification call itself throws, the handler answers with the generic
500 `Failed to process contact form` error — not the 400 bot-check
rejection — and produces no log record and no acknowledgment (hence no
reference identifier). -/
theorem contact_verify_throws_500 (body : ContactBody) (now ip reference : List Char)
    (h1 : contactTokenMissing body.recaptchaToken = false)
    (h2 : contactNameBad body.name = false)
    (h3 : contactEmailBad body.email = false)
    (h4 : contactMessageBad body.message = false) :
    contactHandler body .throws now ip reference = ⟨.contactFailed, true, none⟩ ∧
    ContactResp.status .contactFailed = 500 ∧
    ContactResp.status .recaptchaFailed = 400 := by
  refine ⟨?_, rfl, rfl⟩
  simp [contactHandler, h1, h2, h3, h4]

/-- C10 (witness): the valid demo submission with a throwing verifier. -/
theorem contact_verify_throws_500_witness :
    contactHandler cbodyOk .throws [] [] ['r'] =
      ⟨.contactFailed, true, none⟩ ∧
    ContactResp.status .contactFailed = 500 ∧
    ContactResp.status .recaptchaFailed = 400 :=
  contact_verify_throws_500 cbodyOk [] [] ['r']
    (by decide) (by decide) (by decide) (by decide)
